import Mathlib

/-!
Verification of the AICP ROS orchestration core (`aicp_ros/src/app_ros.cpp`).

The file shallowly embeds the four callbacks of `AppROS` as pure functions over
an explicit application state:

* `robotPoseCallBack`          (pose prior intake and correction composition),
* `velodyneCallBack`           (scan intake, buffer-clear suppression, motion
                                gate, bounded work queue),
* `interactionMarkerCallBack`  (marker seed for prior-map localization),
* `loadMapFromFile`            (prior map loading).

Poses (`Eigen::Isometry3d`) are modelled as elements of an arbitrary group `P`:
composition is the group product, `inverse()` is the group inverse.  The float
round-trip through `initialT_` is modelled as exact.

External collaborators that are not part of the translated source file
(`VelodyneAccumulatorROS`, `quat_to_euler` from `aicp_utils`, Eigen's
translation norm, PCL's PLY loader, the plane-segmentation filter, and the
numeric value of the `M_PI` constant) are passed in as parameters through
`ExternalOps`; the accumulator's observable state (scan counter, finished flag,
finished time, accumulated cloud) is explicit so that `clearCloud` can be given
its documented meaning (counter reset, finished flag cleared, cloud emptied).
Publishing, logging and TF broadcasting have no effect on the modelled state
and are omitted.
-/

/-- The two command-line flags of `CommandLineConfig` that gate the logic of
the four callbacks (`load_map_from_file`, `localize_against_prior_map`).
Flags that only select publication channels are omitted. -/
structure CommandLineConfig where
  load_map_from_file : Bool
  localize_against_prior_map : Bool
deriving DecidableEq, Repr

/-- The `AlignedCloud` payload as built at dispatch time: a capture timestamp,
the accumulated point cloud, and the raw pose in effect when accumulation
finished. -/
structure AlignedCloud (P Cl : Type) where
  utime : Nat
  cloud : Cl
  pose : P
deriving DecidableEq, Repr

/-- Observable state of the external `VelodyneAccumulatorROS` collaborator:
the scan counter (`getCounter`), the finished flag (`getFinished`), the
finished timestamp (`getFinishedTime`) and the accumulated cloud
(`getCloud`). -/
structure Accumulator (Cl : Type) where
  counter : Nat
  finished : Bool
  finishedTime : Nat
  cloud : Cl
deriving DecidableEq, Repr

/-- Modelled from the spec: the accumulator's `clearCloud` (the `reset()`
operation of the external accumulator, which is not under `src/`) clears the
accumulator's internal state: counter reset, finished flag cleared, cloud
emptied. -/
def Accumulator.clearCloud {Cl : Type} (empty : Cl) (a : Accumulator Cl) :
    Accumulator Cl :=
  { counter := 0, finished := false, finishedTime := a.finishedTime,
    cloud := empty }

/-- External collaborators used by the callbacks, abstracted as functions:
`processLidar` is the accumulator's scan intake, `emptyCloud` the content of a
reset accumulator, `transNorm` is `relative_motion.translation().norm()`,
`roll`/`pitch`/`yaw` are the Euler angles extracted by `quat_to_euler` from the
rotation of a relative motion, `piconst` is the numeric value of the `M_PI`
constant, `loadPLYFile` is `pcl::io::loadPLYFile` (`none` models return `-1`),
and `planeFilter` is `regionGrowingUniformPlaneSegmentationFilter`. -/
structure ExternalOps (P S Cl : Type) where
  processLidar : Accumulator Cl → S → Accumulator Cl
  emptyCloud : Cl
  transNorm : P → ℚ
  roll : P → ℚ
  pitch : P → ℚ
  yaw : P → ℚ
  piconst : ℚ
  loadPLYFile : String → Option Cl
  planeFilter : Cl → Cl

/-- The mutable state of `AppROS` relevant to the four callbacks.
`world_to_body_msg_` always mirrors `world_to_body_` and is merged into it;
`drops_reported` is the running total of the drop counts printed by the
overflow warning in `velodyneCallBack`. -/
structure AppState (P Cl : Type) where
  world_to_body : P
  world_to_body_previous : P
  world_to_body_marker_msg : P
  total_correction : P
  corrected_pose : P
  pose_initialized : Bool
  map_initialized : Bool
  pose_marker_initialized : Bool
  clear_clouds_buffer : Bool
  updated_correction : Bool
  cloud_queue : List (AlignedCloud P Cl)
  drops_reported : Nat
  accu : Accumulator Cl
  prior_map : Option (AlignedCloud P Cl)
deriving DecidableEq, Repr

/-- `AppROS::robotPoseCallBack`: stores the latest raw pose, derives the
one-time prior-map correction on the very first accepted pose, composes the
corrected pose as `total_correction_ * world_to_body_`, turns a pending
`updated_correction_` into a buffer-clear request, and marks the pose
initialized. -/
def robotPoseCallBack {P Cl : Type} [Group P] (cfg : CommandLineConfig)
    (pose_msg_in : P) (s : AppState P Cl) : AppState P Cl :=
  if (cfg.load_map_from_file || cfg.localize_against_prior_map)
      && !s.pose_marker_initialized then
    s
  else
    let s1 := { s with world_to_body := pose_msg_in }
    let s2 :=
      if !s1.pose_initialized then
        let s1a := { s1 with world_to_body_previous := s1.world_to_body }
        if cfg.load_map_from_file || cfg.localize_against_prior_map then
          { s1a with total_correction :=
              s1a.world_to_body_marker_msg * s1a.world_to_body⁻¹ }
        else s1a
      else s1
    let s3 := { s2 with corrected_pose := s2.total_correction * s2.world_to_body }
    let s4 :=
      if s3.updated_correction then
        { s3 with clear_clouds_buffer := true, updated_correction := false }
      else s3
    { s4 with pose_initialized := true }

/-- The motion gate of `velodyneCallBack`: dispatch only if the translation
norm of the relative motion exceeds `1.0` or the magnitude of any of roll,
pitch, yaw exceeds `10.0 * M_PI / 180.0`. -/
def motionGate {P S Cl : Type} (ops : ExternalOps P S Cl) (rel : P) : Bool :=
  decide (1 < ops.transNorm rel)
    || decide (10 * ops.piconst / 180 < |ops.roll rel|)
    || decide (10 * ops.piconst / 180 < |ops.pitch rel|)
    || decide (10 * ops.piconst / 180 < |ops.yaw rel|)

/-- The overflow loop of `velodyneCallBack`:
`while (cloud_queue_.size() > max_queue_size) cloud_queue_.pop_front();`. -/
def dropFrontWhileOver {α : Type} (maxq : Nat) : List α → List α
  | [] => []
  | a :: q =>
    if maxq < (a :: q).length then dropFrontWhileOver maxq q else a :: q

/-- The queue push of `velodyneCallBack`: append the batch at the back, then
drop from the front while the size exceeds `maxq`; the second component is the
drop count printed by the overflow warning. -/
def pushToQueue {α : Type} (maxq : Nat) (q : List α) (b : α) :
    List α × Nat :=
  let q1 := q ++ [b]
  (dropFrontWhileOver maxq q1, q1.length - maxq)

/-- The scan-intake phase of `velodyneCallBack`: if no buffer clear is pending,
forward the scan to the accumulator; otherwise consume the flag and, if the
accumulator holds at least one scan, clear it. -/
def scanIntake {P S Cl : Type} (ops : ExternalOps P S Cl) (laser_msg_in : S)
    (s : AppState P Cl) : AppState P Cl :=
  if !s.clear_clouds_buffer then
    { s with accu := ops.processLidar s.accu laser_msg_in }
  else
    let sa := { s with clear_clouds_buffer := false }
    if 0 < sa.accu.counter then
      { sa with accu := Accumulator.clearCloud ops.emptyCloud sa.accu }
    else sa

/-- `AppROS::velodyneCallBack`: rejects scans until the pose is initialized;
otherwise runs scan intake, and if the accumulator reports a finished batch,
applies the motion gate to the relative motion since the previous accepted
pose, on success wraps the cloud into an `AlignedCloud`, advances the previous
pose and pushes onto the bounded queue (`max_queue_size = 100`), and in every
finished case clears the accumulator. -/
def velodyneCallBack {P S Cl : Type} [Group P] (ops : ExternalOps P S Cl)
    (laser_msg_in : S) (s : AppState P Cl) : AppState P Cl :=
  if !s.pose_initialized then
    s
  else
    let s1 := scanIntake ops laser_msg_in s
    let relative_motion := s1.world_to_body_previous⁻¹ * s1.world_to_body
    if s1.accu.finished then
      let s2 :=
        if motionGate ops relative_motion then
          let current : AlignedCloud P Cl :=
            { utime := s1.accu.finishedTime, cloud := s1.accu.cloud,
              pose := s1.world_to_body }
          let s1a := { s1 with world_to_body_previous := s1.world_to_body }
          let pr := pushToQueue 100 s1a.cloud_queue current
          { s1a with cloud_queue := pr.1,
                     drops_reported := s1a.drops_reported + pr.2 }
        else s1
      { s2 with accu := Accumulator.clearCloud ops.emptyCloud s2.accu }
    else s1

/-- `AppROS::interactionMarkerCallBack`: neglected when the map service is
disabled or the map is not initialized; records the marker pose and sets
`pose_marker_initialized_` while localization has not started; rejected once
it has. -/
def interactionMarkerCallBack {P Cl : Type} (cfg : CommandLineConfig)
    (init_pose_msg_in : P) (s : AppState P Cl) : AppState P Cl :=
  if !cfg.load_map_from_file && !cfg.localize_against_prior_map then
    s
  else if !s.map_initialized then
    s
  else if !s.pose_initialized then
    { s with world_to_body_marker_msg := init_pose_msg_in,
             pose_marker_initialized := true }
  else
    s

/-- `AppROS::loadMapFromFile`: fails when the map service is disabled or
localization has already started (leaving the state untouched); otherwise
loads the PLY file (`none` models a load error), filters it, replaces the
prior map and sets `map_initialized_`.  `now` is the microsecond timestamp
`ros::Time::now().toNSec() / 1000`. -/
def loadMapFromFile {P S Cl : Type} [Group P] (ops : ExternalOps P S Cl)
    (cfg : CommandLineConfig) (now : Nat) (file_path : String)
    (s : AppState P Cl) : Bool × AppState P Cl :=
  if !cfg.load_map_from_file && !cfg.localize_against_prior_map then
    (false, s)
  else if s.pose_initialized then
    (false, s)
  else
    match ops.loadPLYFile file_path with
    | none => (false, s)
    | some map =>
      let filtered_map := ops.planeFilter map
      (true, { s with
        prior_map := some { utime := now, cloud := filtered_map, pose := 1 },
        map_initialized := true })

/-- One external event delivered to the application: a pose prior, a lidar
scan, an interactive-marker pose, or a map-load request. -/
inductive AppAction (P S : Type) where
  | robotPose (pose : P)
  | velodyne (laser : S)
  | marker (pose : P)
  | loadMap (now : Nat) (path : String)

/-- Dispatch of one `AppAction` to the corresponding callback. -/
def appStep {P S Cl : Type} [Group P] (cfg : CommandLineConfig)
    (ops : ExternalOps P S Cl) : AppAction P S → AppState P Cl → AppState P Cl
  | AppAction.robotPose p, s => robotPoseCallBack cfg p s
  | AppAction.velodyne l, s => velodyneCallBack ops l s
  | AppAction.marker p, s => interactionMarkerCallBack cfg p s
  | AppAction.loadMap now path, s => (loadMapFromFile ops cfg now path s).2

/-- One step of the queue-only view of the dispatch path: push a batch and
accumulate the reported drop count. -/
def pushStep {α : Type} (maxq : Nat) (acc : List α × Nat) (b : α) :
    List α × Nat :=
  let pr := pushToQueue maxq acc.1 b
  (pr.1, acc.2 + pr.2)

/-- Push a whole sequence of batches through the bounded queue, starting from
an empty queue with a zero drop count. -/
def pushAll {α : Type} (maxq : Nat) (l : List α) : List α × Nat :=
  l.foldl (pushStep maxq) ([], 0)

/-- A concrete configuration with the map service enabled, used to exercise
the prior-map paths on concrete inputs. -/
def demoCfg : CommandLineConfig :=
  { load_map_from_file := true, localize_against_prior_map := false }

/-- A concrete configuration with the map service disabled. -/
def demoCfgOff : CommandLineConfig :=
  { load_map_from_file := false, localize_against_prior_map := false }

/-- A freshly reset accumulator over `Nat` clouds. -/
def demoAccu : Accumulator Nat :=
  { counter := 0, finished := false, finishedTime := 0, cloud := 0 }

/-- Concrete external collaborators over the pose group `Multiplicative ℚ`
(composition is rational addition): the accumulator counts scans, the
translation norm of a relative motion is its absolute value, all Euler angles
are zero, and a PLY file loads to its path length unless it is `bad.ply`. -/
def demoOps : ExternalOps (Multiplicative ℚ) Unit Nat where
  processLidar a _ := { a with counter := a.counter + 1, cloud := a.cloud + 1 }
  emptyCloud := 0
  transNorm p := |Multiplicative.toAdd p|
  roll _ := 0
  pitch _ := 0
  yaw _ := 0
  piconst := 3
  loadPLYFile path := if path = "bad.ply" then none else some path.length
  planeFilter c := c

/-- The application state right after construction: identity poses, all flags
down, empty queue, reset accumulator, no prior map. -/
def demoState : AppState (Multiplicative ℚ) Nat :=
  { world_to_body := 1, world_to_body_previous := 1,
    world_to_body_marker_msg := 1, total_correction := 1, corrected_pose := 1,
    pose_initialized := false, map_initialized := false,
    pose_marker_initialized := false, clear_clouds_buffer := false,
    updated_correction := false, cloud_queue := [], drops_reported := 0,
    accu := demoAccu, prior_map := none }

/-- A concrete pose in the demo group: the rigid transform represented by the
rational `q`. -/
def demoPose (q : ℚ) : Multiplicative ℚ := Multiplicative.ofAdd q

/-- State in which the prior map is loaded and the marker seed was accepted,
awaiting the first raw pose. -/
def demoSeedState : AppState (Multiplicative ℚ) Nat :=
  { demoState with map_initialized := true, pose_marker_initialized := true,
                   world_to_body_marker_msg := demoPose 5 }

/-- State in which the prior map is loaded but no marker seed has arrived. -/
def demoAwaitSeedState : AppState (Multiplicative ℚ) Nat :=
  { demoState with map_initialized := true }

/-- An accumulator that has just finished a batch of three scans. -/
def demoFinishedAccu : Accumulator Nat :=
  { counter := 3, finished := true, finishedTime := 7, cloud := 3 }

/-- Tracking state with a finished accumulator and a raw pose two length
units from the previous accepted pose. -/
def demoTrackState : AppState (Multiplicative ℚ) Nat :=
  { demoState with pose_initialized := true, world_to_body := demoPose 2,
                   accu := demoFinishedAccu }

/-- Tracking state with a pending buffer-clear request and an empty,
unfinished accumulator. -/
def demoEmptyClearState : AppState (Multiplicative ℚ) Nat :=
  { demoState with pose_initialized := true, clear_clouds_buffer := true }

/-- Tracking state in which a worker correction was just accepted
(`updated_correction_` raised) and two scans sit in the accumulator. -/
def demoUpdatedState : AppState (Multiplicative ℚ) Nat :=
  { demoState with pose_initialized := true, updated_correction := true,
                   world_to_body := demoPose 2,
                   accu := { counter := 2, finished := false,
                             finishedTime := 0, cloud := 2 } }

/-- Tracking state with a pending buffer-clear request and two scans in the
accumulator. -/
def demoClearState : AppState (Multiplicative ℚ) Nat :=
  { demoState with pose_initialized := true, clear_clouds_buffer := true,
                   accu := { counter := 2, finished := false,
                             finishedTime := 0, cloud := 2 } }

theorem scanIntake_world_to_body {P S Cl : Type} (ops : ExternalOps P S Cl)
    (laser : S) (s : AppState P Cl) :
    (scanIntake ops laser s).world_to_body = s.world_to_body := by
  simp only [scanIntake]
  split
  · rfl
  · split <;> rfl

theorem scanIntake_world_to_body_previous {P S Cl : Type}
    (ops : ExternalOps P S Cl) (laser : S) (s : AppState P Cl) :
    (scanIntake ops laser s).world_to_body_previous
      = s.world_to_body_previous := by
  simp only [scanIntake]
  split
  · rfl
  · split <;> rfl

theorem scanIntake_cloud_queue {P S Cl : Type} (ops : ExternalOps P S Cl)
    (laser : S) (s : AppState P Cl) :
    (scanIntake ops laser s).cloud_queue = s.cloud_queue := by
  simp only [scanIntake]
  split
  · rfl
  · split <;> rfl

theorem scanIntake_drops_reported {P S Cl : Type} (ops : ExternalOps P S Cl)
    (laser : S) (s : AppState P Cl) :
    (scanIntake ops laser s).drops_reported = s.drops_reported := by
  simp only [scanIntake]
  split
  · rfl
  · split <;> rfl

theorem motionGate_eq_true_iff {P S Cl : Type} (ops : ExternalOps P S Cl)
    (rel : P) :
    motionGate ops rel = true ↔
      (1 < ops.transNorm rel
        ∨ 10 * ops.piconst / 180 < |ops.roll rel|
        ∨ 10 * ops.piconst / 180 < |ops.pitch rel|
        ∨ 10 * ops.piconst / 180 < |ops.yaw rel|) := by
  simp [motionGate, Bool.or_eq_true, decide_eq_true_eq, or_assoc]

theorem dropFrontWhileOver_eq_drop {α : Type} (maxq : Nat) (q : List α) :
    dropFrontWhileOver maxq q = q.drop (q.length - maxq) := by
  induction q with
  | nil => simp [dropFrontWhileOver]
  | cons a q ih =>
    rw [dropFrontWhileOver]
    by_cases h : maxq < (a :: q).length
    · rw [if_pos h, ih]
      have h1 : (a :: q).length - maxq = (q.length - maxq) + 1 := by
        simp only [List.length_cons] at h ⊢
        omega
      rw [h1, List.drop_succ_cons]
    · rw [if_neg h]
      have h1 : (a :: q).length - maxq = 0 := by
        simp only [List.length_cons] at h ⊢
        omega
      rw [h1, List.drop_zero]

theorem lastN_append_absorb {α : Type} (n : Nat) (x y : List α) :
    ((x.drop (x.length - n)) ++ y).drop
        (((x.drop (x.length - n)) ++ y).length - n)
      = (x ++ y).drop ((x ++ y).length - n) := by
  rw [← List.drop_append_of_le_length (Nat.sub_le x.length n)]
  rw [List.drop_drop]
  congr 1
  simp only [List.length_drop, List.length_append]
  omega

theorem pushAll_loop {α : Type} (maxq : Nat) (l : List α) :
    ∀ (q0 : List α) (d0 : Nat), q0.length ≤ maxq →
      (List.foldl (pushStep maxq) (q0, d0) l).1
          = (q0 ++ l).drop ((q0 ++ l).length - maxq)
        ∧ (List.foldl (pushStep maxq) (q0, d0) l).2
          = d0 + ((q0 ++ l).length - maxq) := by
  induction l with
  | nil =>
    intro q0 d0 h
    have h0 : q0.length - maxq = 0 := by omega
    simp [h0]
  | cons b l ih =>
    intro q0 d0 h
    have hstep : pushStep maxq (q0, d0) b
        = ((q0 ++ [b]).drop ((q0 ++ [b]).length - maxq),
            d0 + ((q0 ++ [b]).length - maxq)) := by
      simp [pushStep, pushToQueue, dropFrontWhileOver_eq_drop]
    have hlen : ((q0 ++ [b]).drop ((q0 ++ [b]).length - maxq)).length ≤ maxq := by
      simp only [List.length_drop, List.length_append, List.length_singleton]
      omega
    obtain ⟨h1, h2⟩ := ih ((q0 ++ [b]).drop ((q0 ++ [b]).length - maxq))
      (d0 + ((q0 ++ [b]).length - maxq)) hlen
    constructor
    · rw [List.foldl_cons, hstep, h1, lastN_append_absorb]
      rw [List.append_assoc]
      rfl
    · rw [List.foldl_cons, hstep, h2]
      simp only [List.length_append, List.length_drop, List.length_cons,
        List.length_nil]
      omega

/-- C1: for every accepted raw-pose update (the prior-map marker guard does
not fire), the corrected pose equals the running correction left-composed
with the raw pose stored by this very update — `corrected = correction ∘ raw`
with the correction on the left, never computed from a stale raw pose. -/
theorem corrected_pose_is_correction_comp_raw {P Cl : Type} [Group P]
    (cfg : CommandLineConfig) (pose_msg_in : P) (s : AppState P Cl)
    (h : ((cfg.load_map_from_file || cfg.localize_against_prior_map)
            && !s.pose_marker_initialized) = false) :
    (robotPoseCallBack cfg pose_msg_in s).corrected_pose
        = (robotPoseCallBack cfg pose_msg_in s).total_correction
            * (robotPoseCallBack cfg pose_msg_in s).world_to_body
      ∧ (robotPoseCallBack cfg pose_msg_in s).world_to_body = pose_msg_in := by
  cases hmk : s.pose_marker_initialized <;>
    cases hp : s.pose_initialized <;>
      cases hm : (cfg.load_map_from_file || cfg.localize_against_prior_map) <;>
        cases hu : s.updated_correction <;>
          simp_all [robotPoseCallBack]

/-- Concrete run of C1: a first raw pose accepted with the map service
disabled. -/
theorem corrected_pose_is_correction_comp_raw_witness :
    ((demoCfgOff.load_map_from_file || demoCfgOff.localize_against_prior_map)
        && !demoState.pose_marker_initialized) = false
      ∧ ((robotPoseCallBack demoCfgOff (demoPose 2) demoState).corrected_pose
            = (robotPoseCallBack demoCfgOff (demoPose 2) demoState).total_correction
                * (robotPoseCallBack demoCfgOff (demoPose 2) demoState).world_to_body
          ∧ (robotPoseCallBack demoCfgOff (demoPose 2) demoState).world_to_body
            = demoPose 2) :=
  ⟨by decide,
   corrected_pose_is_correction_comp_raw demoCfgOff (demoPose 2) demoState
     (by decide)⟩

/-- C4: when prior-map localization is requested and the marker seed is set,
the first accepted raw pose derives the running correction exactly once as
`priorGuess ∘ rawPose⁻¹`, so the corrected pose computed from that raw pose is
exactly the seed pose; any later update (pose already initialized) leaves the
running correction untouched. -/
theorem prior_map_correction_seeded_once {P Cl : Type} [Group P]
    (cfg : CommandLineConfig) (pose_msg_in q : P) (s t : AppState P Cl)
    (hmode : (cfg.load_map_from_file || cfg.localize_against_prior_map) = true)
    (hmarker : s.pose_marker_initialized = true)
    (hinit : s.pose_initialized = false)
    (htrack : t.pose_initialized = true) :
    (robotPoseCallBack cfg pose_msg_in s).total_correction
        = s.world_to_body_marker_msg * pose_msg_in⁻¹
      ∧ (robotPoseCallBack cfg pose_msg_in s).corrected_pose
          = s.world_to_body_marker_msg
      ∧ (robotPoseCallBack cfg q t).total_correction = t.total_correction := by
  refine ⟨?_, ?_, ?_⟩
  · cases hu : s.updated_correction <;>
      simp [robotPoseCallBack, hmode, hmarker, hinit, hu]
  · cases hu : s.updated_correction <;>
      simp [robotPoseCallBack, hmode, hmarker, hinit, hu]
  · cases hmk : t.pose_marker_initialized <;>
      cases hu : t.updated_correction <;>
        simp [robotPoseCallBack, hmode, hmk, htrack, hu]

/-- Concrete run of C4: the marker seed at rational offset 5, first raw pose
at offset 2; a tracking-state update keeps the correction. -/
theorem prior_map_correction_seeded_once_witness :
    (demoCfg.load_map_from_file || demoCfg.localize_against_prior_map) = true
      ∧ demoSeedState.pose_marker_initialized = true
      ∧ demoSeedState.pose_initialized = false
      ∧ demoTrackState.pose_initialized = true
      ∧ ((robotPoseCallBack demoCfg (demoPose 2) demoSeedState).total_correction
            = demoSeedState.world_to_body_marker_msg * (demoPose 2)⁻¹
          ∧ (robotPoseCallBack demoCfg (demoPose 2) demoSeedState).corrected_pose
              = demoSeedState.world_to_body_marker_msg
          ∧ (robotPoseCallBack demoCfg (demoPose 3) demoTrackState).total_correction
              = demoTrackState.total_correction) :=
  ⟨by decide, by decide, by decide, by decide,
   prior_map_correction_seeded_once demoCfg (demoPose 2) (demoPose 3)
     demoSeedState demoTrackState (by decide) (by decide) (by decide)
     (by decide)⟩

/-- C7: inputs arriving before the lifecycle allows them are discarded
without changing any state: a scan offered before the first raw pose is a
no-op, and in prior-map mode a raw-pose update arriving before the marker
seed is set is a no-op. -/
theorem pre_lifecycle_inputs_are_noops {P S Cl : Type} [Group P]
    (ops : ExternalOps P S Cl) (cfg : CommandLineConfig) (laser : S)
    (pose_msg_in : P) (s t : AppState P Cl)
    (hscan : s.pose_initialized = false)
    (hmode : (cfg.load_map_from_file || cfg.localize_against_prior_map) = true)
    (hmarker : t.pose_marker_initialized = false) :
    velodyneCallBack ops laser s = s
      ∧ robotPoseCallBack cfg pose_msg_in t = t := by
  constructor
  · simp [velodyneCallBack, hscan]
  · simp [robotPoseCallBack, hmode, hmarker]

/-- Concrete run of C7: a scan and a pose both dropped while the lifecycle
forbids them. -/
theorem pre_lifecycle_inputs_are_noops_witness :
    demoState.pose_initialized = false
      ∧ (demoCfg.load_map_from_file || demoCfg.localize_against_prior_map)
          = true
      ∧ demoAwaitSeedState.pose_marker_initialized = false
      ∧ (velodyneCallBack demoOps () demoState = demoState
          ∧ robotPoseCallBack demoCfg (demoPose 2) demoAwaitSeedState
              = demoAwaitSeedState) :=
  ⟨by decide, by decide, by decide,
   pre_lifecycle_inputs_are_noops demoOps demoCfg () (demoPose 2) demoState
     demoAwaitSeedState (by decide) (by decide) (by decide)⟩

/-- C6: with the map service enabled and before tracking starts, two
successive map loads both succeed and the second replaces the first; once
tracking has started a load attempt returns failure and leaves the whole
state (in particular the loaded map) unchanged. -/
theorem map_load_twice_then_frozen {P S Cl : Type} [Group P]
    (ops : ExternalOps P S Cl) (cfg : CommandLineConfig)
    (now1 now2 now3 : Nat) (path1 path2 path3 : String) (m1 m2 : Cl)
    (s t : AppState P Cl)
    (hmode : (cfg.load_map_from_file || cfg.localize_against_prior_map) = true)
    (hpre : s.pose_initialized = false)
    (hm1 : ops.loadPLYFile path1 = some m1)
    (hm2 : ops.loadPLYFile path2 = some m2)
    (htrack : t.pose_initialized = true) :
    (loadMapFromFile ops cfg now1 path1 s).1 = true
      ∧ (loadMapFromFile ops cfg now2 path2
            (loadMapFromFile ops cfg now1 path1 s).2).1 = true
      ∧ (loadMapFromFile ops cfg now2 path2
            (loadMapFromFile ops cfg now1 path1 s).2).2.prior_map
          = some { utime := now2, cloud := ops.planeFilter m2, pose := 1 }
      ∧ (loadMapFromFile ops cfg now3 path3 t).1 = false
      ∧ (loadMapFromFile ops cfg now3 path3 t).2 = t := by
  have hguard : (!cfg.load_map_from_file && !cfg.localize_against_prior_map)
      = false := by
    cases h1 : cfg.load_map_from_file <;>
      cases h2 : cfg.localize_against_prior_map <;> simp_all
  have hfirst : loadMapFromFile ops cfg now1 path1 s
      = (true, { s with
          prior_map := some { utime := now1, cloud := ops.planeFilter m1,
                              pose := 1 },
          map_initialized := true }) := by
    simp [loadMapFromFile, hguard, hpre, hm1]
  refine ⟨?_, ?_, ?_, ?_, ?_⟩
  · rw [hfirst]
  · rw [hfirst]
    simp [loadMapFromFile, hguard, hpre, hm2]
  · rw [hfirst]
    simp [loadMapFromFile, hguard, hpre, hm2]
  · simp [loadMapFromFile, hguard, htrack]
  · simp [loadMapFromFile, hguard, htrack]

/-- Concrete run of C6: two loads before tracking (5- and 6-point maps), one
rejected load after tracking started. -/
theorem map_load_twice_then_frozen_witness :
    (demoCfg.load_map_from_file || demoCfg.localize_against_prior_map) = true
      ∧ demoState.pose_initialized = false
      ∧ demoOps.loadPLYFile "a.ply" = some 5
      ∧ demoOps.loadPLYFile "bb.ply" = some 6
      ∧ demoTrackState.pose_initialized = true
      ∧ ((loadMapFromFile demoOps demoCfg 11 "a.ply" demoState).1 = true
          ∧ (loadMapFromFile demoOps demoCfg 12 "bb.ply"
                (loadMapFromFile demoOps demoCfg 11 "a.ply" demoState).2).1
              = true
          ∧ (loadMapFromFile demoOps demoCfg 12 "bb.ply"
                (loadMapFromFile demoOps demoCfg 11 "a.ply" demoState).2).2.prior_map
              = some { utime := 12, cloud := demoOps.planeFilter 6, pose := 1 }
          ∧ (loadMapFromFile demoOps demoCfg 13 "c.ply" demoTrackState).1
              = false
          ∧ (loadMapFromFile demoOps demoCfg 13 "c.ply" demoTrackState).2
              = demoTrackState) :=
  ⟨by decide, by decide, by decide, by decide, by decide,
   map_load_twice_then_frozen demoOps demoCfg 11 12 13 "a.ply" "bb.ply" "c.ply"
     5 6 demoState demoTrackState (by decide) (by decide) (by decide)
     (by decide) (by decide)⟩

theorem scanIntake_flags {P S Cl : Type} (ops : ExternalOps P S Cl)
    (laser : S) (s : AppState P Cl) :
    (scanIntake ops laser s).pose_initialized = s.pose_initialized
      ∧ (scanIntake ops laser s).map_initialized = s.map_initialized
      ∧ (scanIntake ops laser s).pose_marker_initialized
          = s.pose_marker_initialized := by
  simp only [scanIntake]
  split
  · exact ⟨rfl, rfl, rfl⟩
  · split <;> exact ⟨rfl, rfl, rfl⟩

theorem velodyne_flags {P S Cl : Type} [Group P] (ops : ExternalOps P S Cl)
    (laser : S) (s : AppState P Cl) :
    (velodyneCallBack ops laser s).pose_initialized = s.pose_initialized
      ∧ (velodyneCallBack ops laser s).map_initialized = s.map_initialized
      ∧ (velodyneCallBack ops laser s).pose_marker_initialized
          = s.pose_marker_initialized := by
  obtain ⟨f1, f2, f3⟩ := scanIntake_flags ops laser s
  simp only [velodyneCallBack]
  split
  · exact ⟨rfl, rfl, rfl⟩
  · split
    · split <;> simp [f1, f2, f3]
    · exact ⟨f1, f2, f3⟩

theorem robotPose_flags {P Cl : Type} [Group P] (cfg : CommandLineConfig)
    (p : P) (s : AppState P Cl) :
    (robotPoseCallBack cfg p s).map_initialized = s.map_initialized
      ∧ (robotPoseCallBack cfg p s).pose_marker_initialized
          = s.pose_marker_initialized
      ∧ (s.pose_initialized = true →
          (robotPoseCallBack cfg p s).pose_initialized = true) := by
  cases hmk : s.pose_marker_initialized <;>
    cases hp : s.pose_initialized <;>
      cases hm : (cfg.load_map_from_file || cfg.localize_against_prior_map) <;>
        cases hu : s.updated_correction <;>
          simp_all [robotPoseCallBack]

theorem marker_flags {P Cl : Type} (cfg : CommandLineConfig) (p : P)
    (s : AppState P Cl) :
    (interactionMarkerCallBack cfg p s).pose_initialized = s.pose_initialized
      ∧ (interactionMarkerCallBack cfg p s).map_initialized = s.map_initialized
      ∧ (s.pose_marker_initialized = true →
          (interactionMarkerCallBack cfg p s).pose_marker_initialized
            = true) := by
  simp only [interactionMarkerCallBack]
  split
  · simp
  · split
    · simp
    · split <;> simp

theorem loadMap_flags {P S Cl : Type} [Group P] (ops : ExternalOps P S Cl)
    (cfg : CommandLineConfig) (now : Nat) (path : String) (s : AppState P Cl) :
    (loadMapFromFile ops cfg now path s).2.pose_initialized
        = s.pose_initialized
      ∧ (loadMapFromFile ops cfg now path s).2.pose_marker_initialized
          = s.pose_marker_initialized
      ∧ (s.map_initialized = true →
          (loadMapFromFile ops cfg now path s).2.map_initialized = true) := by
  simp only [loadMapFromFile]
  split
  · simp
  · split
    · simp
    · split <;> simp

/-- C8: in the awaiting-seed state (map loaded, no marker yet, localization
not started) the marker callback records the seed pose and raises the marker
flag, moving the lifecycle forward; once tracking has started every seed
attempt is rejected unchanged; and no lifecycle flag ever falls back under
any callback (no state is revisited). -/
theorem marker_seed_accepted_then_frozen {P S Cl : Type} [Group P]
    (cfg : CommandLineConfig) (ops : ExternalOps P S Cl) (init_pose q : P)
    (s t u : AppState P Cl) (act : AppAction P S)
    (hmode : (cfg.load_map_from_file || cfg.localize_against_prior_map) = true)
    (hmap : s.map_initialized = true)
    (hseed : s.pose_marker_initialized = false)
    (hpre : s.pose_initialized = false)
    (htrack : t.pose_initialized = true) :
    interactionMarkerCallBack cfg init_pose s
        = { s with world_to_body_marker_msg := init_pose,
                   pose_marker_initialized := true }
      ∧ interactionMarkerCallBack cfg q t = t
      ∧ (u.pose_marker_initialized = true →
          (appStep cfg ops act u).pose_marker_initialized = true)
      ∧ (u.pose_initialized = true →
          (appStep cfg ops act u).pose_initialized = true)
      ∧ (u.map_initialized = true →
          (appStep cfg ops act u).map_initialized = true) := by
  have hguard : (!cfg.load_map_from_file && !cfg.localize_against_prior_map)
      = false := by
    cases h1 : cfg.load_map_from_file <;>
      cases h2 : cfg.localize_against_prior_map <;> simp_all
  refine ⟨?_, ?_, ?_, ?_, ?_⟩
  · simp [interactionMarkerCallBack, hguard, hmap, hpre]
  · cases hm2 : t.map_initialized <;>
      simp [interactionMarkerCallBack, hguard, htrack, hm2]
  · cases act with
    | robotPose p =>
      intro hu
      have h := (robotPose_flags cfg p u).2.1
      simp [appStep, h, hu]
    | velodyne l =>
      intro hu
      have h := (velodyne_flags ops l u).2.2
      simp [appStep, h, hu]
    | marker p =>
      intro hu
      have h := (marker_flags cfg p u).2.2 hu
      simp [appStep, h]
    | loadMap now path =>
      intro hu
      have h := (loadMap_flags ops cfg now path u).2.1
      simp [appStep, h, hu]
  · cases act with
    | robotPose p =>
      intro hu
      have h := (robotPose_flags cfg p u).2.2 hu
      simp [appStep, h]
    | velodyne l =>
      intro hu
      have h := (velodyne_flags ops l u).1
      simp [appStep, h, hu]
    | marker p =>
      intro hu
      have h := (marker_flags cfg p u).1
      simp [appStep, h, hu]
    | loadMap now path =>
      intro hu
      have h := (loadMap_flags ops cfg now path u).1
      simp [appStep, h, hu]
  · cases act with
    | robotPose p =>
      intro hu
      have h := (robotPose_flags cfg p u).1
      simp [appStep, h, hu]
    | velodyne l =>
      intro hu
      have h := (velodyne_flags ops l u).2.1
      simp [appStep, h, hu]
    | marker p =>
      intro hu
      have h := (marker_flags cfg p u).2.1
      simp [appStep, h, hu]
    | loadMap now path =>
      intro hu
      have h := (loadMap_flags ops cfg now path u).2.2 hu
      simp [appStep, h]

/-- Concrete run of C8: the seed accepted in the awaiting-seed state, a seed
rejected in tracking, and flag monotonicity along a pose update. -/
theorem marker_seed_accepted_then_frozen_witness :
    (demoCfg.load_map_from_file || demoCfg.localize_against_prior_map) = true
      ∧ demoAwaitSeedState.map_initialized = true
      ∧ demoAwaitSeedState.pose_marker_initialized = false
      ∧ demoAwaitSeedState.pose_initialized = false
      ∧ demoTrackState.pose_initialized = true
      ∧ (interactionMarkerCallBack demoCfg (demoPose 7) demoAwaitSeedState
            = { demoAwaitSeedState with
                  world_to_body_marker_msg := demoPose 7,
                  pose_marker_initialized := true }
          ∧ interactionMarkerCallBack demoCfg (demoPose 9) demoTrackState
              = demoTrackState
          ∧ (demoTrackState.pose_marker_initialized = true →
              (appStep demoCfg demoOps (AppAction.robotPose (demoPose 1))
                  demoTrackState).pose_marker_initialized = true)
          ∧ (demoTrackState.pose_initialized = true →
              (appStep demoCfg demoOps (AppAction.robotPose (demoPose 1))
                  demoTrackState).pose_initialized = true)
          ∧ (demoTrackState.map_initialized = true →
              (appStep demoCfg demoOps (AppAction.robotPose (demoPose 1))
                  demoTrackState).map_initialized = true)) :=
  ⟨by decide, by decide, by decide, by decide, by decide,
   marker_seed_accepted_then_frozen demoCfg demoOps (demoPose 7) (demoPose 9)
     demoAwaitSeedState demoTrackState demoTrackState
     (AppAction.robotPose (demoPose 1)) (by decide) (by decide) (by decide)
     (by decide) (by decide)⟩

theorem velodyne_clear_scan_independent {P S Cl : Type} [Group P]
    (ops : ExternalOps P S Cl) (laser1 laser2 : S) (s : AppState P Cl)
    (hclear : s.clear_clouds_buffer = true) :
    velodyneCallBack ops laser1 s = velodyneCallBack ops laser2 s := by
  simp [velodyneCallBack, scanIntake, hclear]

theorem velodyne_pending_clear_effect {P S Cl : Type} [Group P]
    (ops : ExternalOps P S Cl) (laser : S) (s : AppState P Cl)
    (hpose : s.pose_initialized = true)
    (hclear : s.clear_clouds_buffer = true) :
    (velodyneCallBack ops laser s).clear_clouds_buffer = false
      ∧ (velodyneCallBack ops laser s).accu.counter = 0
      ∧ ((velodyneCallBack ops laser s).accu
            = Accumulator.clearCloud ops.emptyCloud s.accu
          ∨ (velodyneCallBack ops laser s).accu = s.accu) := by
  refine ⟨?_, ?_, ?_⟩
  all_goals
    cases hcnt : s.accu.counter with
    | zero =>
      cases hfin : s.accu.finished <;>
        cases hg : motionGate ops
            (s.world_to_body_previous⁻¹ * s.world_to_body) <;>
          simp [velodyneCallBack, scanIntake, hpose, hclear, hcnt, hfin, hg,
            Accumulator.clearCloud, pushToQueue]
    | succ n =>
      simp [velodyneCallBack, scanIntake, hpose, hclear, hcnt,
        Accumulator.clearCloud]

/-- C5: an accepted pose update that observes `updated_correction_` raises
the one-shot buffer-clear suppression and lowers `updated_correction_`; the
next scan callback after it then consumes the suppression flag, discards its
scan (its result does not depend on the scan), and never forwards it to the
accumulator — the accumulator is either cleared or left untouched, with its
scan counter at zero either way. -/
theorem pending_clear_consumed_by_next_scan {P S Cl : Type} [Group P]
    (ops : ExternalOps P S Cl) (cfg : CommandLineConfig) (pose_msg_in : P)
    (laser laser2 : S) (t : AppState P Cl)
    (hguard : ((cfg.load_map_from_file || cfg.localize_against_prior_map)
        && !t.pose_marker_initialized) = false)
    (hupd : t.updated_correction = true) :
    (robotPoseCallBack cfg pose_msg_in t).clear_clouds_buffer = true
      ∧ (robotPoseCallBack cfg pose_msg_in t).updated_correction = false
      ∧ (velodyneCallBack ops laser
            (robotPoseCallBack cfg pose_msg_in t)).clear_clouds_buffer = false
      ∧ (velodyneCallBack ops laser
            (robotPoseCallBack cfg pose_msg_in t)).accu.counter = 0
      ∧ ((velodyneCallBack ops laser
              (robotPoseCallBack cfg pose_msg_in t)).accu
            = Accumulator.clearCloud ops.emptyCloud
                (robotPoseCallBack cfg pose_msg_in t).accu
          ∨ (velodyneCallBack ops laser
                (robotPoseCallBack cfg pose_msg_in t)).accu
              = (robotPoseCallBack cfg pose_msg_in t).accu)
      ∧ velodyneCallBack ops laser2 (robotPoseCallBack cfg pose_msg_in t)
          = velodyneCallBack ops laser (robotPoseCallBack cfg pose_msg_in t)
    := by
  have hr : (robotPoseCallBack cfg pose_msg_in t).clear_clouds_buffer = true
      ∧ (robotPoseCallBack cfg pose_msg_in t).updated_correction = false
      ∧ (robotPoseCallBack cfg pose_msg_in t).pose_initialized = true := by
    cases hmk : t.pose_marker_initialized <;>
      cases hp : t.pose_initialized <;>
        cases hm : (cfg.load_map_from_file
            || cfg.localize_against_prior_map) <;>
          simp_all [robotPoseCallBack]
  obtain ⟨hclear, hupd2, hpose⟩ := hr
  obtain ⟨e1, e2, e3⟩ := velodyne_pending_clear_effect ops laser
    (robotPoseCallBack cfg pose_msg_in t) hpose hclear
  exact ⟨hclear, hupd2, e1, e2, e3,
    velodyne_clear_scan_independent ops laser2 laser
      (robotPoseCallBack cfg pose_msg_in t) hclear⟩

/-- Concrete run of C5: a pose update observing a fresh correction arms the
suppression, and the following scan consumes it. -/
theorem pending_clear_consumed_by_next_scan_witness :
    ((demoCfgOff.load_map_from_file || demoCfgOff.localize_against_prior_map)
        && !demoUpdatedState.pose_marker_initialized) = false
      ∧ demoUpdatedState.updated_correction = true
      ∧ ((robotPoseCallBack demoCfgOff (demoPose 1)
              demoUpdatedState).clear_clouds_buffer = true
          ∧ (robotPoseCallBack demoCfgOff (demoPose 1)
                demoUpdatedState).updated_correction = false
          ∧ (velodyneCallBack demoOps () (robotPoseCallBack demoCfgOff
                (demoPose 1) demoUpdatedState)).clear_clouds_buffer = false
          ∧ (velodyneCallBack demoOps () (robotPoseCallBack demoCfgOff
                (demoPose 1) demoUpdatedState)).accu.counter = 0
          ∧ ((velodyneCallBack demoOps () (robotPoseCallBack demoCfgOff
                  (demoPose 1) demoUpdatedState)).accu
                = Accumulator.clearCloud demoOps.emptyCloud
                    (robotPoseCallBack demoCfgOff (demoPose 1)
                      demoUpdatedState).accu
              ∨ (velodyneCallBack demoOps () (robotPoseCallBack demoCfgOff
                    (demoPose 1) demoUpdatedState)).accu
                  = (robotPoseCallBack demoCfgOff (demoPose 1)
                      demoUpdatedState).accu)
          ∧ velodyneCallBack demoOps () (robotPoseCallBack demoCfgOff
                (demoPose 1) demoUpdatedState)
              = velodyneCallBack demoOps () (robotPoseCallBack demoCfgOff
                  (demoPose 1) demoUpdatedState)) :=
  ⟨by decide, by decide,
   pending_clear_consumed_by_next_scan demoOps demoCfgOff (demoPose 1) () ()
     demoUpdatedState (by decide) (by decide)⟩

/-- C10: under a pending buffer clear the scan is always discarded and the
flag always reset, but the accumulator's clear is invoked only when the scan
counter is strictly positive; with an empty (and unfinished) accumulator the
flag is consumed and the scan dropped while the accumulator is left
untouched. -/
theorem pending_clear_skips_clear_when_empty {P S Cl : Type} [Group P]
    (ops : ExternalOps P S Cl) (laser laser2 : S) (s : AppState P Cl)
    (hpose : s.pose_initialized = true)
    (hclear : s.clear_clouds_buffer = true) :
    (velodyneCallBack ops laser s).clear_clouds_buffer = false
      ∧ velodyneCallBack ops laser2 s = velodyneCallBack ops laser s
      ∧ (0 < s.accu.counter →
          (velodyneCallBack ops laser s).accu
            = Accumulator.clearCloud ops.emptyCloud s.accu)
      ∧ (s.accu.counter = 0 → s.accu.finished = false →
          (velodyneCallBack ops laser s).accu = s.accu) := by
  refine ⟨?_, velodyne_clear_scan_independent ops laser2 laser s hclear,
    ?_, ?_⟩
  · cases hcnt : s.accu.counter with
    | zero =>
      cases hfin : s.accu.finished <;>
        cases hg : motionGate ops
            (s.world_to_body_previous⁻¹ * s.world_to_body) <;>
          simp [velodyneCallBack, scanIntake, hpose, hclear, hcnt, hfin, hg,
            Accumulator.clearCloud, pushToQueue]
    | succ n =>
      simp [velodyneCallBack, scanIntake, hpose, hclear, hcnt,
        Accumulator.clearCloud]
  · intro hcnt
    cases hc : s.accu.counter with
    | zero => simp [hc] at hcnt
    | succ n =>
      simp [velodyneCallBack, scanIntake, hpose, hclear, hc,
        Accumulator.clearCloud]
  · intro hcnt hfin
    simp [velodyneCallBack, scanIntake, hpose, hclear, hcnt, hfin]

/-- Concrete run of C10: a pending clear over an empty, unfinished
accumulator (the flag is consumed without touching the accumulator). -/
theorem pending_clear_skips_clear_when_empty_witness :
    demoEmptyClearState.pose_initialized = true
      ∧ demoEmptyClearState.clear_clouds_buffer = true
      ∧ ((velodyneCallBack demoOps () demoEmptyClearState).clear_clouds_buffer
            = false
          ∧ velodyneCallBack demoOps () demoEmptyClearState
              = velodyneCallBack demoOps () demoEmptyClearState
          ∧ (0 < demoEmptyClearState.accu.counter →
              (velodyneCallBack demoOps () demoEmptyClearState).accu
                = Accumulator.clearCloud demoOps.emptyCloud
                    demoEmptyClearState.accu)
          ∧ (demoEmptyClearState.accu.counter = 0 →
              demoEmptyClearState.accu.finished = false →
              (velodyneCallBack demoOps () demoEmptyClearState).accu
                = demoEmptyClearState.accu)) :=
  ⟨by decide, by decide,
   pending_clear_skips_clear_when_empty demoOps () () demoEmptyClearState
     (by decide) (by decide)⟩

/-- C9: the previous-accepted-pose reference is advanced only at an actual
dispatch: a pose update once tracking started never moves it, a scan
callback whose batch is not finished never moves it (whatever the gate
says), a scan callback whose gate fails never moves it (the
finished-but-rejected batch is dropped with the queue untouched), and when a
finished batch passes the gate the batch is dispatched and the reference
advances to the current raw pose — so the displacement tested next is
measured from the last dispatched batch's pose. -/
theorem previous_pose_advances_only_on_dispatch {P S Cl : Type} [Group P]
    (ops : ExternalOps P S Cl) (cfg : CommandLineConfig) (laser : S)
    (pose_msg_in : P) (s t : AppState P Cl)
    (htrack : t.pose_initialized = true)
    (hpose : s.pose_initialized = true) :
    (robotPoseCallBack cfg pose_msg_in t).world_to_body_previous
        = t.world_to_body_previous
      ∧ ((scanIntake ops laser s).accu.finished = false →
          (velodyneCallBack ops laser s).world_to_body_previous
              = s.world_to_body_previous
            ∧ (velodyneCallBack ops laser s).cloud_queue = s.cloud_queue)
      ∧ (motionGate ops (s.world_to_body_previous⁻¹ * s.world_to_body)
            = false →
          (velodyneCallBack ops laser s).world_to_body_previous
              = s.world_to_body_previous
            ∧ (velodyneCallBack ops laser s).cloud_queue = s.cloud_queue)
      ∧ ((scanIntake ops laser s).accu.finished = true →
          motionGate ops (s.world_to_body_previous⁻¹ * s.world_to_body)
              = true →
          (velodyneCallBack ops laser s).world_to_body_previous
              = s.world_to_body
            ∧ (velodyneCallBack ops laser s).cloud_queue
                = (pushToQueue 100 s.cloud_queue
                    { utime := (scanIntake ops laser s).accu.finishedTime,
                      cloud := (scanIntake ops laser s).accu.cloud,
                      pose := s.world_to_body }).1) := by
  have h1 := scanIntake_world_to_body ops laser s
  have h2 := scanIntake_world_to_body_previous ops laser s
  have h3 := scanIntake_cloud_queue ops laser s
  refine ⟨?_, ?_, ?_, ?_⟩
  · cases hmk : t.pose_marker_initialized <;>
      cases hm : (cfg.load_map_from_file || cfg.localize_against_prior_map) <;>
        cases hu : t.updated_correction <;>
          simp_all [robotPoseCallBack]
  · intro hfin
    simp [velodyneCallBack, hpose, hfin, h1, h2, h3]
  · intro hg
    cases hfin : (scanIntake ops laser s).accu.finished <;>
      simp [velodyneCallBack, hpose, hfin, h1, h2, h3, hg]
  · intro hfin hg
    simp [velodyneCallBack, hpose, hfin, h1, h2, h3, hg]

/-- Concrete run of C9: a tracking state with a finished accumulator and a
raw pose two units away. -/
theorem previous_pose_advances_only_on_dispatch_witness :
    demoTrackState.pose_initialized = true
      ∧ ((robotPoseCallBack demoCfgOff (demoPose 1)
              demoTrackState).world_to_body_previous
            = demoTrackState.world_to_body_previous
          ∧ ((scanIntake demoOps () demoTrackState).accu.finished = false →
              (velodyneCallBack demoOps () demoTrackState).world_to_body_previous
                  = demoTrackState.world_to_body_previous
                ∧ (velodyneCallBack demoOps () demoTrackState).cloud_queue
                    = demoTrackState.cloud_queue)
          ∧ (motionGate demoOps (demoTrackState.world_to_body_previous⁻¹
                * demoTrackState.world_to_body) = false →
              (velodyneCallBack demoOps () demoTrackState).world_to_body_previous
                  = demoTrackState.world_to_body_previous
                ∧ (velodyneCallBack demoOps () demoTrackState).cloud_queue
                    = demoTrackState.cloud_queue)
          ∧ ((scanIntake demoOps () demoTrackState).accu.finished = true →
              motionGate demoOps (demoTrackState.world_to_body_previous⁻¹
                  * demoTrackState.world_to_body) = true →
              (velodyneCallBack demoOps () demoTrackState).world_to_body_previous
                  = demoTrackState.world_to_body
                ∧ (velodyneCallBack demoOps () demoTrackState).cloud_queue
                    = (pushToQueue 100 demoTrackState.cloud_queue
                        { utime := (scanIntake demoOps ()
                            demoTrackState).accu.finishedTime,
                          cloud := (scanIntake demoOps ()
                            demoTrackState).accu.cloud,
                          pose := demoTrackState.world_to_body }).1)) :=
  ⟨by decide,
   previous_pose_advances_only_on_dispatch demoOps demoCfgOff () (demoPose 1)
     demoTrackState demoTrackState (by decide) (by decide)⟩

/-- C2: a finished batch is enqueued when the displacement since the previous
accepted pose has translation norm strictly above `1.0` or any of roll,
pitch, yaw strictly above ten degrees (`10 * M_PI / 180` radians), and is
never enqueued when it is below both thresholds. -/
theorem dispatch_iff_motion_gate {P S Cl : Type} [Group P]
    (ops : ExternalOps P S Cl) (laser : S) (s : AppState P Cl)
    (hpose : s.pose_initialized = true)
    (hfin : (scanIntake ops laser s).accu.finished = true) :
    (¬ (1 < ops.transNorm (s.world_to_body_previous⁻¹ * s.world_to_body)
          ∨ 10 * ops.piconst / 180
              < |ops.roll (s.world_to_body_previous⁻¹ * s.world_to_body)|
          ∨ 10 * ops.piconst / 180
              < |ops.pitch (s.world_to_body_previous⁻¹ * s.world_to_body)|
          ∨ 10 * ops.piconst / 180
              < |ops.yaw (s.world_to_body_previous⁻¹ * s.world_to_body)|) →
        (velodyneCallBack ops laser s).cloud_queue = s.cloud_queue)
      ∧ ((1 < ops.transNorm (s.world_to_body_previous⁻¹ * s.world_to_body)
            ∨ 10 * ops.piconst / 180
                < |ops.roll (s.world_to_body_previous⁻¹ * s.world_to_body)|
            ∨ 10 * ops.piconst / 180
                < |ops.pitch (s.world_to_body_previous⁻¹ * s.world_to_body)|
            ∨ 10 * ops.piconst / 180
                < |ops.yaw (s.world_to_body_previous⁻¹ * s.world_to_body)|) →
          (velodyneCallBack ops laser s).cloud_queue
            = (pushToQueue 100 s.cloud_queue
                { utime := (scanIntake ops laser s).accu.finishedTime,
                  cloud := (scanIntake ops laser s).accu.cloud,
                  pose := s.world_to_body }).1) := by
  have h1 := scanIntake_world_to_body ops laser s
  have h2 := scanIntake_world_to_body_previous ops laser s
  have h3 := scanIntake_cloud_queue ops laser s
  constructor
  · intro hno
    have hg : motionGate ops (s.world_to_body_previous⁻¹ * s.world_to_body)
        = false := by
      cases h : motionGate ops (s.world_to_body_previous⁻¹ * s.world_to_body)
      · rfl
      · exact absurd ((motionGate_eq_true_iff ops
          (s.world_to_body_previous⁻¹ * s.world_to_body)).mp h) hno
    simp [velodyneCallBack, hpose, hfin, h1, h2, h3, hg]
  · intro hyes
    have hg : motionGate ops (s.world_to_body_previous⁻¹ * s.world_to_body)
        = true := (motionGate_eq_true_iff ops
          (s.world_to_body_previous⁻¹ * s.world_to_body)).mpr hyes
    simp [velodyneCallBack, hpose, hfin, h1, h2, h3, hg]

/-- Concrete run of C2: a finished three-scan batch with the raw pose two
length units from the previous accepted pose. -/
theorem dispatch_iff_motion_gate_witness :
    demoTrackState.pose_initialized = true
      ∧ (scanIntake demoOps () demoTrackState).accu.finished = true
      ∧ ((¬ (1 < demoOps.transNorm (demoTrackState.world_to_body_previous⁻¹
                * demoTrackState.world_to_body)
            ∨ 10 * demoOps.piconst / 180
                < |demoOps.roll (demoTrackState.world_to_body_previous⁻¹
                    * demoTrackState.world_to_body)|
            ∨ 10 * demoOps.piconst / 180
                < |demoOps.pitch (demoTrackState.world_to_body_previous⁻¹
                    * demoTrackState.world_to_body)|
            ∨ 10 * demoOps.piconst / 180
                < |demoOps.yaw (demoTrackState.world_to_body_previous⁻¹
                    * demoTrackState.world_to_body)|) →
          (velodyneCallBack demoOps () demoTrackState).cloud_queue
            = demoTrackState.cloud_queue)
        ∧ ((1 < demoOps.transNorm (demoTrackState.world_to_body_previous⁻¹
              * demoTrackState.world_to_body)
            ∨ 10 * demoOps.piconst / 180
                < |demoOps.roll (demoTrackState.world_to_body_previous⁻¹
                    * demoTrackState.world_to_body)|
            ∨ 10 * demoOps.piconst / 180
                < |demoOps.pitch (demoTrackState.world_to_body_previous⁻¹
                    * demoTrackState.world_to_body)|
            ∨ 10 * demoOps.piconst / 180
                < |demoOps.yaw (demoTrackState.world_to_body_previous⁻¹
                    * demoTrackState.world_to_body)|) →
          (velodyneCallBack demoOps () demoTrackState).cloud_queue
            = (pushToQueue 100 demoTrackState.cloud_queue
                { utime := (scanIntake demoOps () demoTrackState).accu.finishedTime,
                  cloud := (scanIntake demoOps () demoTrackState).accu.cloud,
                  pose := demoTrackState.world_to_body }).1)) :=
  ⟨by decide, by decide,
   dispatch_iff_motion_gate demoOps () demoTrackState (by decide)
     (by decide)⟩

/-- C3: pushing `N > 100` batches through the bounded queue (capacity
`max_queue_size = 100`, drop from the front on overflow) leaves exactly the
100 most recently pushed batches in arrival order, and the reported drop
counts total `N - 100`. -/
theorem bounded_queue_keeps_newest {α : Type} (l : List α)
    (h : 100 < l.length) :
    (pushAll 100 l).1 = l.drop (l.length - 100)
      ∧ (pushAll 100 l).1.length = 100
      ∧ (pushAll 100 l).2 = l.length - 100 := by
  obtain ⟨h1, h2⟩ := pushAll_loop 100 l [] 0 (by simp)
  have he1 : (pushAll 100 l).1 = l.drop (l.length - 100) := by
    simpa [pushAll] using h1
  have he2 : (pushAll 100 l).2 = l.length - 100 := by
    simpa [pushAll] using h2
  refine ⟨he1, ?_, he2⟩
  rw [he1, List.length_drop]
  omega

/-- Concrete run of C3: 101 distinct batches pushed, the first one dropped,
one drop reported. -/
theorem bounded_queue_keeps_newest_witness :
    100 < (List.range 101).length
      ∧ ((pushAll 100 (List.range 101)).1
            = (List.range 101).drop ((List.range 101).length - 100)
          ∧ (pushAll 100 (List.range 101)).1.length = 100
          ∧ (pushAll 100 (List.range 101)).2
              = (List.range 101).length - 100) :=
  ⟨by decide, bounded_queue_keeps_newest (List.range 101) (by decide)⟩
